import Mathlib

/-
Verification development for the UPFH virtual front-desk agent
(source files: bot/chatbot.py, backend/calendar_tools.py).

The Python source is shallowly embedded: pure helpers become Lean
functions, external collaborators (Google Calendar, the OpenAI model,
difflib) are passed in as explicit function parameters, datetimes are
modelled as integer minute counts, Python floats as exact rationals,
and Python exceptions as Except values.
-/

namespace UPFH

/- ────────────────────────────────────────────────────────────────────
   Python string helpers: str.lower, str.strip, substring containment
   (`t in k`), as used by _norm_proc in chatbot.py.
   ──────────────────────────────────────────────────────────────────── -/

/-- ASCII lower-casing of one character, as Python str.lower acts on the
ASCII catalogue keys (non-ASCII characters in the keys are unaffected). -/
def lowerChar (c : Char) : Char :=
  if ('A' ≤ c ∧ c ≤ 'Z') then Char.ofNat (c.toNat + 32) else c

/-- Python str.lower over the characters of a string. -/
def pyLower (s : String) : String :=
  String.mk (s.toList.map lowerChar)

/-- Characters removed by Python str.strip with no argument. -/
def isPySpace (c : Char) : Bool :=
  c = ' ' || c = '\t' || c = '\n' || c = '\r'

/-- Python str.strip: drop whitespace from both ends. -/
def pyStrip (s : String) : String :=
  String.mk (((s.toList.dropWhile isPySpace).reverse.dropWhile isPySpace).reverse)

/-- Whether the first character list starts the second one. -/
def leadsWith : List Char → List Char → Bool
  | [], _ => true
  | _ :: _, [] => false
  | a :: as, b :: bs => a == b && leadsWith as bs

/-- Whether the first character list occurs contiguously inside the second
(Python's `t in k` on strings). -/
def containsSub (t : List Char) : List Char → Bool
  | [] => leadsWith t []
  | b :: bs => leadsWith t (b :: bs) || containsSub t bs

/-- Python substring test `t in k`. -/
def strIn (t k : String) : Bool :=
  containsSub t.toList k.toList

/- ────────────────────────────────────────────────────────────────────
   Sliding-fee calculator (chatbot.py section 4).
   ──────────────────────────────────────────────────────────────────── -/

/-- A fee cell of FEE_TABLE: a dollar amount or the "Full charge" sentinel. -/
inductive FeeVal where
  | amount (n : ℕ)
  | fullCharge
deriving DecidableEq

/-- One row of FEE_TABLE: the amounts for tiers A–E.  Every row's "F"
entry in the source is the literal "Full charge" string, represented by
`FeeVal.fullCharge` in `rowGet`. -/
structure FeeRow where
  a : ℕ
  b : ℕ
  c : ℕ
  d : ℕ
  e : ℕ
deriving DecidableEq

/-- Python `row.get(tier, "Full charge")`: every row dict carries keys
"A"–"F" with "F" mapped to "Full charge"; any other tier string falls to
the .get default, which is also "Full charge". -/
def rowGet (r : FeeRow) (tier : String) : FeeVal :=
  match tier with
  | "A" => .amount r.a
  | "B" => .amount r.b
  | "C" => .amount r.c
  | "D" => .amount r.d
  | "E" => .amount r.e
  | _ => .fullCharge

/-- FEE_TABLE from chatbot.py, in source (insertion) order. -/
def FEE_TABLE : List (String × FeeRow) := [
  ("UPFH Medical Fee", ⟨35, 45, 60, 70, 80⟩),
  ("UPFH Counseling", ⟨20, 25, 35, 40, 50⟩),
  ("UPFH Group Counseling", ⟨10, 15, 20, 25, 30⟩),
  ("UPFH Psychiatric Services", ⟨40, 50, 60, 70, 80⟩),
  ("MOBILE Medical", ⟨35, 45, 60, 70, 80⟩),
  ("Inhouse Vision Exam", ⟨20, 30, 40, 50, 70⟩),
  ("Replacement Glasses", ⟨5, 8, 11, 14, 17⟩),
  ("MOBILE EYE Exam", ⟨5, 7, 8, 10, 15⟩),
  ("MOBILE EYE - Single Lens Glasses", ⟨20, 30, 40, 50, 60⟩),
  ("MOBILE EYE - Bifocal Lens Glasses", ⟨30, 35, 45, 55, 65⟩),
  ("MVHC Pharmacy Fill Fee", ⟨3, 5, 7, 8, 9⟩),
  ("MA Visit - Labs outside of 7 day global", ⟨20, 25, 30, 30, 35⟩),
  ("MA Visit - VACCINES", ⟨20, 20, 20, 20, 20⟩),
  ("Nuvaring", ⟨5, 6, 7, 8, 30⟩),
  ("Sprintec", ⟨10, 11, 15, 20, 25⟩),
  ("Loestrin", ⟨10, 11, 20, 25, 30⟩),
  ("Ella", ⟨10, 11, 25, 30, 35⟩),
  ("Depo-Provera", ⟨15, 20, 25, 30, 35⟩),
  ("Nexplanon", ⟨50, 60, 100, 125, 150⟩),
  ("Mirena", ⟨75, 85, 150, 175, 200⟩),
  ("Liletta", ⟨75, 85, 150, 175, 200⟩),
  ("Paragard (limited supply)", ⟨75, 85, 150, 175, 200⟩),
  ("IUD Removal Fee", ⟨35, 45, 50, 55, 60⟩),
  ("Implanon Removal", ⟨35, 45, 50, 55, 60⟩),
  ("Vaccine Administration Fee", ⟨0, 3, 4, 5, 5⟩),
  ("STD Testing PLUS OFFICE VISIT", ⟨85, 86, 87, 88, 89⟩),
  ("Steroid Injection – Kenalog PLUS OFFICE VISIT", ⟨20, 25, 30, 35, 40⟩),
  ("Hep A", ⟨45, 46, 47, 48, 49⟩),
  ("Hep B", ⟨50, 51, 52, 53, 54⟩),
  ("HIB", ⟨30, 31, 32, 33, 34⟩),
  ("HPV", ⟨330, 335, 335, 335, 335⟩),
  ("Influenza/Flu", ⟨18, 19, 20, 21, 22⟩),
  ("Child Flu", ⟨18, 19, 20, 21, 22⟩),
  ("Pneumovax", ⟨106, 107, 108, 109, 110⟩),
  ("Prevnar 13", ⟨190, 191, 192, 193, 194⟩),
  ("Adult Menactra", ⟨120, 121, 122, 123, 124⟩),
  ("MMR", ⟨75, 76, 77, 78, 79⟩),
  ("TD-Tetanus", ⟨35, 36, 37, 38, 39⟩),
  ("Adult TDAP (Boostrix)", ⟨52, 53, 54, 55, 56⟩),
  ("Polio/IPV", ⟨35, 36, 37, 38, 39⟩),
  ("TB", ⟨10, 11, 12, 13, 14⟩),
  ("Adult Varicella", ⟨130, 131, 132, 133, 134⟩),
  ("B-12", ⟨15, 16, 17, 18, 20⟩),
  ("Wedge Toenail Removal (Global 10 days)", ⟨75, 80, 85, 90, 95⟩),
  ("Toenail Removal", ⟨100, 105, 110, 115, 120⟩),
  ("Endometrial Biopsy (Same Day Add-on)", ⟨105, 110, 115, 115, 115⟩),
  ("Endometrial Biopsy (Follow-up visit)", ⟨35, 45, 60, 70, 80⟩),
  ("Ear Lavage", ⟨10, 11, 12, 13, 14⟩),
  ("PT/INR (outside 14-day window)", ⟨15, 16, 17, 18, 20⟩)]

/-- The catalogue keys in dict-iteration (insertion) order, as Python's
`for k in FEE_TABLE` enumerates them. -/
def FEE_KEYS : List String :=
  FEE_TABLE.map Prod.fst

/-- Python `FEE_TABLE[k]` lookup (as an Option). -/
def lookupRow (k : String) : Option FeeRow :=
  (FEE_TABLE.find? (fun p => p.1 == k)).map Prod.snd

/-- One row of SLIDING_ROWS in chatbot.py. -/
structure SlidingRow where
  tier : String
  min_pct : ℚ
  max_pct : ℚ

/-- SLIDING_ROWS from chatbot.py. -/
def SLIDING_ROWS : List SlidingRow :=
  [⟨"A", 0, 100⟩, ⟨"B", 101, 125⟩, ⟨"C", 126, 150⟩, ⟨"D", 151, 175⟩, ⟨"E", 176, 200⟩]

/-- poverty_percent from chatbot.py: 100*income/(15060+(family_size-1)*5380),
with Python floats modelled as exact rationals. -/
def povertyPercent (income : ℚ) (family_size : ℤ) : ℚ :=
  100 * income / (15060 + (family_size - 1) * 5380)

/-- Python round() to an integer (round half to even) on an exact rational. -/
def roundHalfEven (q : ℚ) : ℤ :=
  if q - ⌊q⌋ < 1/2 then ⌊q⌋
  else if 1/2 < q - ⌊q⌋ then ⌊q⌋ + 1
  else if ⌊q⌋ % 2 = 0 then ⌊q⌋ else ⌊q⌋ + 1

/-- Python round(x, 1): round to the nearest tenth. -/
def roundTenth (q : ℚ) : ℚ :=
  (roundHalfEven (10 * q) : ℚ) / 10

/-- Tier selection in estimate_fee:
`next((r["tier"] for r in SLIDING_ROWS if r["min_pct"]<=pct<=r["max_pct"]),"F")`. -/
def tierFor (pct : ℚ) : String :=
  ((SLIDING_ROWS.find? (fun r => decide (r.min_pct ≤ pct) && decide (pct ≤ r.max_pct))).map
    (fun r => r.tier)).getD "F"

/-- The canonicalised free text of _norm_proc: `raw.strip().lower()`. -/
def canonProc (raw : String) : String :=
  pyLower (pyStrip raw)

/-- The single scan of _norm_proc over the catalogue:
`for k in FEE_TABLE: if t==k.lower() or t in k.lower(): return k`. -/
def scanFind (t : String) : Option String :=
  FEE_KEYS.find? (fun k => t == pyLower k || strIn t (pyLower k))

/-- The fuzzy fallback of _norm_proc.  `closeMatches` abstracts the external
call difflib.get_close_matches(t, [k.lower() for k in FEE_TABLE], n=1, cutoff=.5):
it yields the best lower-cased candidate above the similarity floor, or none.
The result is mapped back to the catalogue key whose lower-casing equals it:
`next((k for k in FEE_TABLE if k.lower()==close[0]), None)`. -/
def fuzzyFind (closeMatches : String → Option String) (t : String) : Option String :=
  match closeMatches t with
  | some c => FEE_KEYS.find? (fun k => pyLower k == c)
  | none => none

/-- _norm_proc from chatbot.py, parameterised by the difflib collaborator. -/
def normProc (closeMatches : String → Option String) (raw : String) : Option String :=
  let t := canonProc raw
  if t = "" then none
  else
    match scanFind t with
    | some k => some k
    | none => fuzzyFind closeMatches t

/-- The record returned by estimate_fee. -/
structure FeeQuote where
  procedure : String
  tier : String
  poverty_percent : ℚ
  estimated_fee : FeeVal

/-- Python `FEE_TABLE.get(key,{}).get(tier,"Full charge")`: an unresolved key
selects the empty dict, whose .get always yields the "Full charge" default. -/
def feeTableGet (key : Option String) (tier : String) : FeeVal :=
  match key.bind lookupRow with
  | some row => rowGet row tier
  | none => .fullCharge

/-- estimate_fee from chatbot.py, parameterised by the difflib collaborator. -/
def estimateFee (closeMatches : String → Option String) (income : ℚ) (family_size : ℤ)
    (procedure : String) : FeeQuote :=
  let pct := roundTenth (povertyPercent income family_size)
  let tier := tierFor pct
  let key := normProc closeMatches procedure
  let fee := feeTableGet key tier
  { procedure := key.getD procedure, tier := tier,
    poverty_percent := pct, estimated_fee := fee }

/- ────────────────────────────────────────────────────────────────────
   Calendar availability (chatbot.py check_calendar_availability).
   Datetimes are modelled as integer minute counts: a calendar date is an
   integer day ordinal d, and the instant "HH:MM on day d" is
   1440*d + (60*HH + MM).  Busy intervals come from the CalendarGateway
   collaborator and are passed in explicitly.
   ──────────────────────────────────────────────────────────────────── -/

/-- _iter_days from chatbot.py: every day from s to e inclusive
(empty when e < s, matching the generator). -/
def iterDays (s e : ℤ) : List ℤ :=
  (List.range (e - s + 1).toNat).map (fun i => s + i)

/-- The argument validation and day enumeration of check_calendar_availability
(chatbot.py lines 145-159).  `none` models an absent (or empty) argument, so
`Option.isSome` is Python truthiness of the corresponding string.  The three
ValueError raises become the three error results.  The final catch-all arm is
unreachable: the two guards force both range ends present when `date` is
absent. -/
def checkAvailabilityDays (date start_date end_date : Option ℤ) :
    Except String (List ℤ) :=
  if date.isSome == (start_date.isSome || end_date.isSome) then
    .error "Pass date OR (start_date and end_date)."
  else if (start_date.isSome && !end_date.isSome) || (end_date.isSome && !start_date.isSome) then
    .error "Both start_date and end_date are required."
  else
    match date, start_date, end_date with
    | some d, _, _ => .ok [d]
    | none, some s, some e =>
        if e < s || 30 < e - s then .error "Bad date range (max 30 days)."
        else .ok (iterDays s e)
    | none, _, _ => .error "Both start_date and end_date are required."

/-- The slot-scanning while loop of check_calendar_availability:
starting at `cursor`, while `cursor + span ≤ close` append `cursor` when no
busy interval (b0, b1) has `b0 < cursor + span and cursor < b1`, then advance
by the fixed 15-minute scan step.  `fuel` bounds the recursion; the wrapper
`genSlots` supplies more fuel than the loop can consume (each pass advances
the cursor by 15), so the fuel never runs out before the loop condition
fails. -/
def genSlotsF (busy : List (ℤ × ℤ)) (span close : ℤ) : ℕ → ℤ → List ℤ
  | 0, _ => []
  | fuel + 1, cursor =>
    if cursor + span ≤ close then
      if busy.any (fun b => decide (b.1 < cursor + span) && decide (cursor < b.2)) then
        genSlotsF busy span close fuel (cursor + 15)
      else
        cursor :: genSlotsF busy span close fuel (cursor + 15)
    else []

/-- The slot scan of check_calendar_availability for one day. -/
def genSlots (busy : List (ℤ × ℤ)) (span close cursor : ℤ) : List ℤ :=
  genSlotsF busy span close (close - span - cursor + 15).toNat cursor

/-- check_calendar_availability from chatbot.py.  `busyOf d` is the busy list
the freebusy query returns for day d (one fetch per day).  Work hours are
minutes within the day (defaults 480 and 1050 for 08:00 and 17:30); a day is
kept only if it has free slots, and at most 10 slots are kept per day. -/
def checkCalendarAvailability (busyOf : ℤ → List (ℤ × ℤ))
    (date start_date end_date : Option ℤ) (duration_minutes : ℤ)
    (work_start work_end : ℤ) : Except String (List (ℤ × List ℤ)) :=
  (checkAvailabilityDays date start_date end_date).map (fun days =>
    days.filterMap (fun d =>
      let slots := genSlots (busyOf d) duration_minutes (1440 * d + work_end) (1440 * d + work_start)
      if slots.isEmpty then none else some (d, slots.take 10)))

/- ────────────────────────────────────────────────────────────────────
   Availability in backend/calendar_tools.py (available_slots).
   ──────────────────────────────────────────────────────────────────── -/

/-- _day_slots from calendar_tools.py: 30-minute starts from `cursor` while
`cursor + 30 ≤ close`.  Fuel-bounded like `genSlotsF`; the wrapper supplies
ample fuel. -/
def dayLoopF (close : ℤ) : ℕ → ℤ → List ℤ
  | 0, _ => []
  | fuel + 1, cursor =>
    if cursor + 30 ≤ close then cursor :: dayLoopF close fuel (cursor + 30)
    else []

/-- _day_slots for day d: clinic opens 08:00 (minute 480 of the day) and
closes 17:30 (minute 1050). -/
def daySlots (d : ℤ) : List ℤ :=
  dayLoopF (1440 * d + 1050) (1440 * d + 1050 - (1440 * d + 480)).toNat (1440 * d + 480)

/-- The busy test of available_slots (calendar_tools.py line 93):
`bs <= s < be or bs < e <= be` with e = s + 30.  A slot is dropped when this
holds for some busy block. -/
def slotBusyHit (busy : List (ℤ × ℤ)) (s : ℤ) : Bool :=
  busy.any (fun b =>
    (decide (b.1 ≤ s) && decide (s < b.2)) || (decide (b.1 < s + 30) && decide (s + 30 ≤ b.2)))

/-- available_slots from calendar_tools.py: only 30-minute slots are
supported; otherwise every day in [date_from, date_to] contributes its
unfiltered day slots.  `busy` is the busy list fetched once for the whole
range by _busy_blocks. -/
def availableSlots (busy : List (ℤ × ℤ)) (date_from date_to slot_minutes : ℤ) :
    Except String (List ℤ) :=
  if slot_minutes ≠ 30 then .error "Only 30-minute slots supported"
  else .ok ((iterDays date_from date_to).flatMap (fun d =>
    (daySlots d).filter (fun s => !slotBusyHit busy s)))

/- ────────────────────────────────────────────────────────────────────
   Booking (chatbot.py create_calendar_event, calendar_tools.py
   book_calendar_event).  The CalendarGateway insert is a parameter; the
   returned Python dicts are association lists so key presence can be
   stated.
   ──────────────────────────────────────────────────────────────────── -/

/-- The event body handed to the calendar insert.  `startDT` and `endDT`
are the source dicts' "start"/"end" dateTime strings. -/
structure EventBody where
  summary : String
  description : String
  startDT : String
  endDT : String
  attendees : List String
deriving DecidableEq

/-- The provider's response to an insert: created["id"] is accessed directly
by chatbot.py, created.get("htmlLink", "") by calendar_tools.py. -/
structure CreatedEvent where
  id : String
  htmlLink : Option String
deriving DecidableEq

/-- Python exceptions escaping the booking helpers. -/
inductive BookErr where
  | nameError (missing : String)
  | gatewayError (msg : String)
deriving DecidableEq

/-- The event dict built by create_calendar_event (chatbot.py lines 207-214).
The attendee list is [email] exactly when the email string is truthy. -/
def chatEvt (patient_name startT endT email phone reason : String) : EventBody :=
  { summary := patient_name ++ " - Clinic Visit",
    description := "Reason: " ++ reason ++ "\nPhone: " ++ phone ++ "\nE-mail: " ++ email,
    startDT := startT, endDT := endT,
    attendees := if email = "" then [] else [email] }

/-- create_calendar_event from chatbot.py (lines 193-233).  After a
successful insert the function evaluates the return-dict literal of lines
223-233; that literal's last entry reads the name `preferred_date`, which is
bound nowhere in the module (it occurs only inside tool-schema strings and as
a dict key elsewhere), so evaluating the dict raises NameError and the
function never returns a record.  A failing insert propagates as the gateway
error (there is no try around the insert). -/
def createCalendarEvent (insertEvent : EventBody → Except String CreatedEvent)
    (patient_name startT endT email phone reason : String) :
    Except BookErr (List (String × String)) :=
  match insertEvent (chatEvt patient_name startT endT email phone reason) with
  | .error e => .error (.gatewayError e)
  | .ok _created => .error (.nameError "preferred_date")

/-- The event dict built by book_calendar_event (calendar_tools.py 107-113). -/
def bookEvt (start_iso end_iso patient_name email reason : String) : EventBody :=
  { summary := "UPFH - " ++ patient_name,
    description := "Email: " ++ email ++ "\nReason: " ++ reason,
    startDT := start_iso, endDT := end_iso,
    attendees := [email] }

/-- book_calendar_event from calendar_tools.py (lines 99-126): on success the
confirmation dict carries status, start_iso, end_iso and the provider's
htmlLink (default empty string); an HttpError from the insert is caught and
returned as an error dict. -/
def bookCalendarEvent (insertEvent : EventBody → Except String CreatedEvent)
    (start_iso end_iso patient_name email reason : String) : List (String × String) :=
  match insertEvent (bookEvt start_iso end_iso patient_name email reason) with
  | .ok created =>
      [("status", "booked"), ("start_iso", start_iso), ("end_iso", end_iso),
       ("htmlLink", created.htmlLink.getD "")]
  | .error e => [("error", e)]

/-- The key set of a returned Python dict. -/
def recKeys (r : List (String × String)) : List String :=
  r.map Prod.fst

/-- Whether an Except value is a success. -/
def exceptIsOk {ε α : Type} : Except ε α → Bool
  | .ok _ => true
  | .error _ => false

/- ────────────────────────────────────────────────────────────────────
   Tool router (_handle_tool_call) and main chat loop (chatbot.py
   sections 8-9).  The OpenAI client and the individual tool bodies are
   collaborators, passed in as `model` and `execTool`.
   ──────────────────────────────────────────────────────────────────── -/

/-- One requested tool call.  `argsParse` is the outcome of
json.loads(call.function.arguments): `some args` for valid JSON, `none` when
the payload is malformed (the source logs and continues with args = {}). -/
structure ToolCall where
  id : String
  fn : String
  argsParse : Option (List (String × String))
deriving DecidableEq

/-- The serialized result of one tool call: a success payload, or the
{"error": msg} dict the router builds for unknown tools and exceptions. -/
inductive ResVal where
  | payload (v : String)
  | errObj (msg : String)
deriving DecidableEq

/-- One {"role": "tool", "tool_call_id": ..., "content": ...} result. -/
structure ToolMsg where
  role : String
  tool_call_id : String
  content : ResVal
deriving DecidableEq

/-- The tool names the router's if/elif chain recognises, in source order. -/
def KNOWN_TOOLS : List String :=
  ["upfh_location_lookup", "upfh_site_search", "upfh_site_summary",
   "list_upfh_services", "estimate_fee", "check_calendar_availability",
   "create_calendar_event", "submit_appointment_request"]

/-- A dispatched tool's outcome as the router records it: the try/except
around the dispatch turns any exception into {"error": str(exc)}. -/
def toRes : Except String String → ResVal
  | .ok v => .payload v
  | .error e => .errObj e

/-- The body of the per-call loop of _handle_tool_call (chatbot.py 630-659).
`execTool` abstracts the eight tool implementations (including the e-mail
side effect of submit_appointment_request); an exception inside one of them
is an `Except.error` carrying str(exc).  Malformed JSON arguments were
already replaced by the empty dict in `argsParse`; the final else of the
chain produces the unknown-tool error dict. -/
def dispatchTool (execTool : String → List (String × String) → Except String String)
    (call : ToolCall) : ToolMsg :=
  let args := call.argsParse.getD []
  let res : ResVal :=
    if call.fn == "upfh_location_lookup" then toRes (execTool call.fn args)
    else if call.fn == "upfh_site_search" then toRes (execTool call.fn args)
    else if call.fn == "upfh_site_summary" then toRes (execTool call.fn args)
    else if call.fn == "list_upfh_services" then toRes (execTool call.fn args)
    else if call.fn == "estimate_fee" then toRes (execTool call.fn args)
    else if call.fn == "check_calendar_availability" then toRes (execTool call.fn args)
    else if call.fn == "create_calendar_event" then toRes (execTool call.fn args)
    else if call.fn == "submit_appointment_request" then toRes (execTool call.fn args)
    else .errObj ("unknown tool " ++ call.fn)
  { role := "tool", tool_call_id := call.id, content := res }

/-- _handle_tool_call: `results=[]` then one append per requested call. -/
def handleToolCall (execTool : String → List (String × String) → Except String String)
    (calls : List ToolCall) : List ToolMsg :=
  calls.foldl (fun results call => results ++ [dispatchTool execTool call]) []

/-- One chat-completions response: finish_reason, message content and the
requested tool calls (empty unless finish_reason is "tool_calls"). -/
structure ModelResp where
  finish : String
  content : String
  tool_calls : List ToolCall

/-- A transcript message as assembled by chat(). -/
inductive ChatMsg where
  | sys (content : String)
  | user (content : String)
  | asst (content : String)
  | asstCalls (r : ModelResp)
  | tool (m : ToolMsg)

/-- One entry of the Gradio-style history argument: a (user, assistant)
tuple or an already-shaped message dict. -/
inductive HistTurn where
  | pair (u a : Option String)
  | raw (m : ChatMsg)

/-- Python truthiness of an optional string slot of a history tuple. -/
def truthyStr : Option String → Bool
  | some s => !(s == "")
  | none => false

/-- The history-flattening loop of chat(): each tuple contributes its truthy
components in user-then-assistant order, each dict is appended as is. -/
def histMsgs (h : List HistTurn) : List ChatMsg :=
  h.foldl (fun acc t =>
    match t with
    | .pair u a =>
        (if truthyStr u then acc ++ [ChatMsg.user (u.getD "")] else acc) ++
          (if truthyStr a then [ChatMsg.asst (a.getD "")] else [])
    | .raw m => acc ++ [m]) []

/-- SYSTEM_PROMPT from chatbot.py (content irrelevant to the claims). -/
def SYSTEM_PROMPT : String :=
  "### UPFH Virtual Front-Desk Assistant / TOOLS / BOOKING FLOW / STYLE"

/-- WELCOME_BUBBLE from chatbot.py (content irrelevant to the claims). -/
def WELCOME_BUBBLE : String :=
  "Welcome to the UPFH Virtual Front Desk! How can I help you today?"

/-- The transcript assembled before the first model call of chat():
system prompt, the welcome bubble when the history is absent or empty, the
flattened history, then the new user utterance. -/
def initMsgs (user_input : String) (history : Option (List HistTurn)) : List ChatMsg :=
  let hist := history.getD []
  (([ChatMsg.sys SYSTEM_PROMPT] ++
      (if hist.isEmpty then [ChatMsg.asst WELCOME_BUBBLE] else [])) ++
    histMsgs hist) ++ [ChatMsg.user user_input]

/-- chat() from chatbot.py (lines 665-686).  `model msgs offered` is one
chat-completions call; `offered` records whether the tool catalogue was
passed (the source passes tools=TOOLS only on the first call).  The result
pairs the returned content with the instrumented list of gateway calls made,
in order, each tagged with its `offered` flag. -/
def chat (model : List ChatMsg → Bool → ModelResp)
    (execTool : String → List (String × String) → Except String String)
    (user_input : String) (history : Option (List HistTurn)) : String × List Bool :=
  let msgs := initMsgs user_input history
  let resp := model msgs true
  if resp.finish == "tool_calls" then
    let tool_msgs := handleToolCall execTool resp.tool_calls
    let msgs2 := (msgs ++ [ChatMsg.asstCalls resp]) ++ tool_msgs.map ChatMsg.tool
    let resp2 := model msgs2 false
    (resp2.content, [true, false])
  else (resp.content, [true])

/- ────────────────────────────────────────────────────────────────────
   Helper lemmas.
   ──────────────────────────────────────────────────────────────────── -/

theorem roundTenth_eq_down (q : ℚ) (n : ℤ) (h1 : (n : ℚ) ≤ 10 * q)
    (h2 : 10 * q - (n : ℚ) < 1/2) : roundTenth q = (n : ℚ) / 10 := by
  have hfl : ⌊(10 : ℚ) * q⌋ = n := by
    rw [Int.floor_eq_iff]
    exact ⟨h1, by linarith⟩
  unfold roundTenth roundHalfEven
  rw [hfl, if_pos h2]

theorem roundTenth_eq_up (q : ℚ) (n : ℤ) (h0 : (n : ℚ) ≤ 10 * q)
    (h1 : (1 : ℚ)/2 < 10 * q - (n : ℚ)) (h2 : 10 * q < (n : ℚ) + 1) :
    roundTenth q = ((n : ℚ) + 1) / 10 := by
  have hfl : ⌊(10 : ℚ) * q⌋ = n := by
    rw [Int.floor_eq_iff]
    exact ⟨h0, h2⟩
  unfold roundTenth roundHalfEven
  rw [hfl, if_neg (by linarith), if_pos h1]
  push_cast
  ring

theorem pct_15060 : roundTenth (povertyPercent 15060 1) = 100 := by
  have h : povertyPercent 15060 1 = 100 := by unfold povertyPercent; norm_num
  rw [h, roundTenth_eq_down 100 1000 (by norm_num) (by norm_num)]
  norm_num

theorem pct_30120 : roundTenth (povertyPercent 30120 1) = 200 := by
  have h : povertyPercent 30120 1 = 200 := by unfold povertyPercent; norm_num
  rw [h, roundTenth_eq_down 200 2000 (by norm_num) (by norm_num)]
  norm_num

theorem pct_30121 : roundTenth (povertyPercent 30121 1) = 200 := by
  have h : povertyPercent 30121 1 = 150605/753 := by unfold povertyPercent; norm_num
  rw [h, roundTenth_eq_down (150605/753) 2000 (by norm_num) (by norm_num)]
  norm_num

theorem pct_30128 : roundTenth (povertyPercent 30128 1) = 2001/10 := by
  have h : povertyPercent 30128 1 = 150640/753 := by unfold povertyPercent; norm_num
  rw [h, roundTenth_eq_up (150640/753) 2000 (by norm_num) (by norm_num) (by norm_num)]
  norm_num

theorem pct_15136 : roundTenth (povertyPercent 15136 1) = 201/2 := by
  have h : povertyPercent 15136 1 = 75680/753 := by unfold povertyPercent; norm_num
  rw [h, roundTenth_eq_down (75680/753) 1005 (by norm_num) (by norm_num)]
  norm_num

theorem tierFor_gap (pct : ℚ)
    (hA : ¬(0 ≤ pct ∧ pct ≤ 100)) (hB : ¬(101 ≤ pct ∧ pct ≤ 125))
    (hC : ¬(126 ≤ pct ∧ pct ≤ 150)) (hD : ¬(151 ≤ pct ∧ pct ≤ 175))
    (hE : ¬(176 ≤ pct ∧ pct ≤ 200)) : tierFor pct = "F" := by
  have bA : (decide ((0:ℚ) ≤ pct) && decide (pct ≤ 100)) = false := by
    rcases not_and_or.mp hA with h | h <;> simp [decide_eq_false h]
  have bB : (decide ((101:ℚ) ≤ pct) && decide (pct ≤ 125)) = false := by
    rcases not_and_or.mp hB with h | h <;> simp [decide_eq_false h]
  have bC : (decide ((126:ℚ) ≤ pct) && decide (pct ≤ 150)) = false := by
    rcases not_and_or.mp hC with h | h <;> simp [decide_eq_false h]
  have bD : (decide ((151:ℚ) ≤ pct) && decide (pct ≤ 175)) = false := by
    rcases not_and_or.mp hD with h | h <;> simp [decide_eq_false h]
  have bE : (decide ((176:ℚ) ≤ pct) && decide (pct ≤ 200)) = false := by
    rcases not_and_or.mp hE with h | h <;> simp [decide_eq_false h]
  unfold tierFor SLIDING_ROWS
  rw [List.find?_cons_of_neg _ (by simp only [Bool.not_eq_true]; exact bA),
      List.find?_cons_of_neg _ (by simp only [Bool.not_eq_true]; exact bB),
      List.find?_cons_of_neg _ (by simp only [Bool.not_eq_true]; exact bC),
      List.find?_cons_of_neg _ (by simp only [Bool.not_eq_true]; exact bD),
      List.find?_cons_of_neg _ (by simp only [Bool.not_eq_true]; exact bE),
      List.find?_nil]
  rfl

/- ────────────────────────────────────────────────────────────────────
   Claim theorems.
   ──────────────────────────────────────────────────────────────────── -/

/-- C3 counterexample: the claim says estimate_fee(income=30121, family_size=1)
yields tier F, but 100*30121/15060 rounds to 200.0, which row E's inclusive
200 bound still accepts, so the code assigns tier E, not F. -/
theorem c3_counterexample :
    (estimateFee (fun _ => none) 30121 1 "Office Visit").tier = "E" ∧
    ("E" : String) ≠ "F" := by
  constructor
  · show tierFor (roundTenth (povertyPercent 30121 1)) = "E"
    rw [pct_30121]
    decide
  · decide

/-- C3 (amended): estimate_fee(15060, 1) gives percentage 100.0 and tier A;
estimate_fee(30120, 1) gives 200.0 and tier E (the 200 boundary is
inclusive); estimate_fee(30121, 1) still rounds to 200.0 and also gives tier
E; the F tier with the "Full charge" sentinel first appears once the rounded
percentage exceeds 200.0, e.g. estimate_fee(30128, 1) gives 200.1, tier F and
the "Full charge" sentinel. -/
theorem c3_amended :
    (estimateFee (fun _ => none) 15060 1 "Office Visit").poverty_percent = 100 ∧
    (estimateFee (fun _ => none) 15060 1 "Office Visit").tier = "A" ∧
    (estimateFee (fun _ => none) 30120 1 "Office Visit").poverty_percent = 200 ∧
    (estimateFee (fun _ => none) 30120 1 "Office Visit").tier = "E" ∧
    (estimateFee (fun _ => none) 30121 1 "Office Visit").poverty_percent = 200 ∧
    (estimateFee (fun _ => none) 30121 1 "Office Visit").tier = "E" ∧
    (estimateFee (fun _ => none) 30128 1 "Office Visit").poverty_percent = 2001/10 ∧
    (estimateFee (fun _ => none) 30128 1 "Office Visit").tier = "F" ∧
    (estimateFee (fun _ => none) 30128 1 "Office Visit").estimated_fee = FeeVal.fullCharge := by
  refine ⟨pct_15060, ?_, pct_30120, ?_, pct_30121, ?_, pct_30128, ?_, ?_⟩
  · show tierFor (roundTenth (povertyPercent 15060 1)) = "A"
    rw [pct_15060]; decide
  · show tierFor (roundTenth (povertyPercent 30120 1)) = "E"
    rw [pct_30120]; decide
  · show tierFor (roundTenth (povertyPercent 30121 1)) = "E"
    rw [pct_30121]; decide
  · show tierFor (roundTenth (povertyPercent 30128 1)) = "F"
    rw [pct_30128]
    refine tierFor_gap _ ?_ ?_ ?_ ?_ ?_ <;> intro h <;> rcases h with ⟨h1, h2⟩ <;> linarith
  · show feeTableGet (normProc (fun _ => none) "Office Visit")
      (tierFor (roundTenth (povertyPercent 30128 1))) = FeeVal.fullCharge
    rw [pct_30128, show tierFor (2001/10 : ℚ) = "F" by
      refine tierFor_gap _ ?_ ?_ ?_ ?_ ?_ <;> intro h <;> rcases h with ⟨h1, h2⟩ <;> linarith]
    decide

/-- C9: whenever the rounded poverty percentage lands strictly inside one of
the gaps between adjacent tier bands — (100,101), (125,126), (150,151) or
(175,176) — no SLIDING_ROWS row matches, so estimate_fee assigns tier F. -/
theorem c9_gap_tier_F (closeMatches : String → Option String) (income : ℚ)
    (family_size : ℤ) (procedure : String)
    (h : (100 < roundTenth (povertyPercent income family_size) ∧
            roundTenth (povertyPercent income family_size) < 101) ∨
         (125 < roundTenth (povertyPercent income family_size) ∧
            roundTenth (povertyPercent income family_size) < 126) ∨
         (150 < roundTenth (povertyPercent income family_size) ∧
            roundTenth (povertyPercent income family_size) < 151) ∨
         (175 < roundTenth (povertyPercent income family_size) ∧
            roundTenth (povertyPercent income family_size) < 176)) :
    (estimateFee closeMatches income family_size procedure).tier = "F" := by
  show tierFor (roundTenth (povertyPercent income family_size)) = "F"
  refine tierFor_gap _ ?_ ?_ ?_ ?_ ?_ <;>
    rcases h with ⟨h1, h2⟩ | ⟨h1, h2⟩ | ⟨h1, h2⟩ | ⟨h1, h2⟩ <;>
    intro hc <;> rcases hc with ⟨hc1, hc2⟩ <;> linarith

/-- C9 witness: income 15136 with family size 1 rounds to 100.5, strictly
inside the (100, 101) gap, and indeed receives tier F. -/
theorem c9_gap_tier_F_witness :
    (100 < roundTenth (povertyPercent 15136 1) ∧
       roundTenth (povertyPercent 15136 1) < 101) ∧
    (estimateFee (fun _ => none) 15136 1 "Office Visit").tier = "F" := by
  have hin : 100 < roundTenth (povertyPercent 15136 1) ∧
      roundTenth (povertyPercent 15136 1) < 101 := by
    rw [pct_15136]; norm_num
  exact ⟨hin, c9_gap_tier_F (fun _ => none) 15136 1 "Office Visit" (Or.inl hin)⟩

/-- C10: when the procedure free text resolves to no catalogue key,
estimate_fee falls back to `FEE_TABLE.get(None, {})`, whose .get default is
the "Full charge" sentinel, and echoes the original free text in the
procedure field — whatever the poverty tier is. -/
theorem c10_unresolved_full_charge (closeMatches : String → Option String)
    (income : ℚ) (family_size : ℤ) (procedure : String)
    (h : normProc closeMatches procedure = none) :
    (estimateFee closeMatches income family_size procedure).estimated_fee =
        FeeVal.fullCharge ∧
    (estimateFee closeMatches income family_size procedure).procedure = procedure := by
  constructor
  · show feeTableGet (normProc closeMatches procedure)
      (tierFor (roundTenth (povertyPercent income family_size))) = FeeVal.fullCharge
    rw [h]; rfl
  · show (normProc closeMatches procedure).getD procedure = procedure
    rw [h]; rfl

/-- C10 witness: the unresolvable text "zzz" at a tier-A income still gets
the "Full charge" sentinel and is echoed back. -/
theorem c10_unresolved_full_charge_witness :
    normProc (fun _ => none) "zzz" = none ∧
    (estimateFee (fun _ => none) 100 1 "zzz").estimated_fee = FeeVal.fullCharge ∧
    (estimateFee (fun _ => none) 100 1 "zzz").procedure = "zzz" := by
  have h : normProc (fun _ => none) "zzz" = none := by decide
  exact ⟨h, (c10_unresolved_full_charge (fun _ => none) 100 1 "zzz" h).1,
    (c10_unresolved_full_charge (fun _ => none) 100 1 "zzz" h).2⟩

/-- C7 counterexample: the input "Toenail Removal" matches the catalogue key
"Toenail Removal" exactly (case-insensitively) — the single scan of
_norm_proc even finds that exact match — yet resolution returns the earlier
key "Wedge Toenail Removal (Global 10 days)", whose lower-casing merely
contains the input, because exact equality and substring containment are
tested together key by key rather than exact-first over the whole
catalogue. -/
theorem c7_counterexample :
    normProc (fun _ => none) "Toenail Removal" =
      some "Wedge Toenail Removal (Global 10 days)" ∧
    FEE_KEYS.find? (fun k => canonProc "Toenail Removal" == pyLower k) =
      some "Toenail Removal" ∧
    some "Wedge Toenail Removal (Global 10 days)" ≠ some "Toenail Removal" := by
  refine ⟨by decide, by decide, by decide⟩

/-- C7 (amended): procedure resolution canonicalises the input
(strip + lower-case) and scans the catalogue once in insertion order,
returning the first key whose lower-casing equals or contains the input — so
a containment match on an earlier key takes precedence over an exact match on
a later key (e.g. "Toenail Removal" resolves to "Wedge Toenail Removal
(Global 10 days)"); only when no key passes this combined test is the fuzzy
matcher consulted (difflib best match over the lower-cased keys, similarity
floor 0.5, mapped back to the catalogue key); if that also fails, resolution
fails and estimate_fee echoes the original free text unresolved. -/
theorem c7_amended :
    (∀ closeMatches : String → Option String,
        normProc closeMatches "Toenail Removal" =
          some "Wedge Toenail Removal (Global 10 days)") ∧
    (∀ (closeMatches : String → Option String) (raw : String),
        canonProc raw ≠ "" → scanFind (canonProc raw) = none →
        normProc closeMatches raw = fuzzyFind closeMatches (canonProc raw)) ∧
    (∀ (closeMatches : String → Option String) (income : ℚ) (family_size : ℤ)
        (procedure : String), normProc closeMatches procedure = none →
        (estimateFee closeMatches income family_size procedure).procedure =
          procedure) := by
  refine ⟨?_, ?_, ?_⟩
  · intro closeMatches
    unfold normProc
    rw [if_neg (by decide), show scanFind (canonProc "Toenail Removal") =
      some "Wedge Toenail Removal (Global 10 days)" from by decide]
  · intro closeMatches raw h1 h2
    unfold normProc
    rw [if_neg h1, h2]
  · intro closeMatches income family_size procedure h
    show (normProc closeMatches procedure).getD procedure = procedure
    rw [h]; rfl

/-- C7 witness: concrete instances discharging each hypothesis of the
amended statement. -/
theorem c7_amended_witness :
    normProc (fun _ => none) "Toenail Removal" =
      some "Wedge Toenail Removal (Global 10 days)" ∧
    normProc (fun t => some t) "zzz" = fuzzyFind (fun t => some t) (canonProc "zzz") ∧
    (estimateFee (fun _ => none) 100 1 "qq").procedure = "qq" :=
  ⟨c7_amended.1 (fun _ => none),
   c7_amended.2.1 (fun t => some t) "zzz" (by decide) (by decide),
   c7_amended.2.2 (fun _ => none) 100 1 "qq" (by decide)⟩

theorem genSlotsF_no_overlap (busy : List (ℤ × ℤ)) (span close : ℤ) :
    ∀ (fuel : ℕ) (cursor s : ℤ), s ∈ genSlotsF busy span close fuel cursor →
    ∀ b ∈ busy, ¬(b.1 < s + span ∧ s < b.2) := by
  intro fuel
  induction fuel with
  | zero =>
    intro cursor s hs
    simp [genSlotsF] at hs
  | succ n ih =>
    intro cursor s hs b hb
    simp only [genSlotsF] at hs
    by_cases h1 : cursor + span ≤ close
    · rw [if_pos h1] at hs
      by_cases h2 : busy.any
          (fun b => decide (b.1 < cursor + span) && decide (cursor < b.2)) = true
      · rw [if_pos h2] at hs
        exact ih (cursor + 15) s hs b hb
      · rw [if_neg h2] at hs
        rcases List.mem_cons.mp hs with rfl | htail
        · intro hover
          apply h2
          simp only [List.any_eq_true]
          exact ⟨b, hb, by simp [hover.1, hover.2]⟩
        · exact ih (cursor + 15) s htail b hb
    · rw [if_neg h1] at hs
      simp at hs

/-- C1: the calendar insert of create_calendar_event succeeds, but building
the return dict then reads the unbound name `preferred_date` (chatbot.py
line 232), so the call raises NameError instead of returning the
BookingConfirmation the spec describes. -/
theorem c1_create_raises (insertEvent : EventBody → Except String CreatedEvent)
    (patient_name startT endT email phone reason : String) (created : CreatedEvent)
    (hok : insertEvent (chatEvt patient_name startT endT email phone reason) =
      .ok created) :
    createCalendarEvent insertEvent patient_name startT endT email phone reason =
      .error (.nameError "preferred_date") := by
  unfold createCalendarEvent
  rw [hok]

/-- C1 witness: a concrete gateway whose insert succeeds still yields the
NameError outcome. -/
theorem c1_create_raises_witness :
    createCalendarEvent (fun _ => .ok ⟨"evt123", some "https://link"⟩)
      "Ann" "2025-08-04T09:00:00-06:00" "2025-08-04T09:30:00-06:00"
      "ann@example.com" "801-555-0100" "checkup" =
      .error (.nameError "preferred_date") :=
  c1_create_raises _ _ _ _ _ _ _ ⟨"evt123", some "https://link"⟩ rfl

/-- C2 counterexample: book_calendar_event's success confirmation does carry
the provider's htmlLink, so the returned record is a confirmation value (its
status is "booked") that contains an htmlLink field, contradicting the
claim. -/
theorem c2_counterexample :
    bookCalendarEvent (fun _ => .ok ⟨"evt9", some "https://calendar.google.com/event"⟩)
      "2025-08-12T15:00:00-06:00" "2025-08-12T15:30:00-06:00" "Ann" "ann@example.com"
      "Appointment" =
      [("status", "booked"), ("start_iso", "2025-08-12T15:00:00-06:00"),
       ("end_iso", "2025-08-12T15:30:00-06:00"),
       ("htmlLink", "https://calendar.google.com/event")] ∧
    "htmlLink" ∈ recKeys
      (bookCalendarEvent (fun _ => .ok ⟨"evt9", some "https://calendar.google.com/event"⟩)
        "2025-08-12T15:00:00-06:00" "2025-08-12T15:30:00-06:00" "Ann" "ann@example.com"
        "Appointment") := by
  exact ⟨rfl, by decide⟩

/-- C2 (amended): create_calendar_event in chatbot.py never produces a
confirmation record at all (every call ends in an error — a NameError after a
successful insert, the gateway error otherwise), so no record with a provider
web link ever leaves it; book_calendar_event in calendar_tools.py, however,
does include an htmlLink field in every success confirmation. -/
theorem c2_amended :
    (∀ (insertEvent : EventBody → Except String CreatedEvent)
        (patient_name startT endT email phone reason : String),
        exceptIsOk (createCalendarEvent insertEvent patient_name startT endT
          email phone reason) = false) ∧
    (∀ (insertEvent : EventBody → Except String CreatedEvent)
        (start_iso end_iso patient_name email reason : String)
        (created : CreatedEvent),
        insertEvent (bookEvt start_iso end_iso patient_name email reason) =
          .ok created →
        "htmlLink" ∈ recKeys (bookCalendarEvent insertEvent start_iso end_iso
          patient_name email reason)) := by
  constructor
  · intro insertEvent pn s e em ph r
    unfold createCalendarEvent
    cases insertEvent (chatEvt pn s e em ph r) <;> rfl
  · intro insertEvent s e pn em r created hok
    unfold bookCalendarEvent
    rw [hok]
    simp [recKeys]

/-- C2 witness for the amended statement: a succeeding gateway produces a
book_calendar_event confirmation whose keys include htmlLink. -/
theorem c2_amended_witness :
    "htmlLink" ∈ recKeys (bookCalendarEvent (fun _ => .ok ⟨"e1", some "L"⟩)
      "s" "e" "Ann" "a@x" "r") :=
  c2_amended.2 _ "s" "e" "Ann" "a@x" "r" ⟨"e1", some "L"⟩ rfl

/-- C4: the chatbot.py scan (check_calendar_availability) never returns a
slot that overlaps a busy interval under the open-interval test; but
available_slots in calendar_tools.py does: with one busy block 09:10-09:20
(minutes 550-560 of day 0) it still returns the 09:00 slot (minute 540),
which overlaps that block in the open-interval sense, because its test
`bs <= s < be or bs < e <= be` misses busy blocks strictly inside the
slot. -/
theorem c4_overlap :
    (∀ (busyOf : ℤ → List (ℤ × ℤ)) (date start_date end_date : Option ℤ)
        (duration_minutes work_start work_end : ℤ)
        (res : List (ℤ × List ℤ)),
        checkCalendarAvailability busyOf date start_date end_date
          duration_minutes work_start work_end = .ok res →
        ∀ p ∈ res, ∀ s ∈ p.2, ∀ b ∈ busyOf p.1,
          ¬(b.1 < s + duration_minutes ∧ s < b.2)) ∧
    ((match availableSlots [(550, 560)] 0 0 30 with
      | .ok l => l.contains 540
      | .error _ => false) = true) ∧
    ((550 : ℤ) < 540 + 30 ∧ (540 : ℤ) < 560) := by
  refine ⟨?_, by decide, by decide⟩
  intro busyOf date sd ed dur ws we res h p hp s hs b hb
  unfold checkCalendarAvailability at h
  cases hv : checkAvailabilityDays date sd ed with
  | error e => rw [hv] at h; simp [Except.map] at h
  | ok days =>
    rw [hv] at h
    simp only [Except.map, Except.ok.injEq] at h
    rw [← h] at hp
    rcases List.mem_filterMap.mp hp with ⟨d, _hd, hfd⟩
    by_cases hemp : (genSlots (busyOf d) dur (1440 * d + we) (1440 * d + ws)).isEmpty
    · rw [if_pos hemp] at hfd
      exact absurd hfd (by simp)
    · rw [if_neg hemp] at hfd
      have hp' : p = (d, (genSlots (busyOf d) dur (1440 * d + we) (1440 * d + ws)).take 10) :=
        (Option.some.injEq _ _).mp hfd |>.symm
      subst hp'
      have hmem : s ∈ genSlots (busyOf d) dur (1440 * d + we) (1440 * d + ws) :=
        List.mem_of_mem_take hs
      exact genSlotsF_no_overlap (busyOf d) dur (1440 * d + we) _ (1440 * d + ws) s hmem b hb

/-- C4 witness: instantiating the chatbot-side invariant at a concrete
request whose busy block is 09:10-09:20 of day 0; slot 480 (08:00) is
returned and indeed does not overlap the block. -/
theorem c4_overlap_witness :
    ¬((550 : ℤ) < 480 + 30 ∧ (480 : ℤ) < 560) :=
  c4_overlap.1 (fun _ => [(550, 560)]) (some 0) none none 30 480 1050
    [(0, [480, 495, 510, 570, 585, 600, 615, 630, 645, 660])] rfl
    (0, [480, 495, 510, 570, 585, 600, 615, 630, 645, 660]) (by decide)
    480 (by decide) (550, 560) (by decide)

/-- C5: check_calendar_availability rejects a request that supplies neither
`date` nor a range, or both; it rejects a range whose end precedes its start
or lies more than 30 days after it; and a range of exactly 30 days passes
validation and enumerates its days. -/
theorem c5_validation (d s e : ℤ) :
    exceptIsOk (checkAvailabilityDays none none none) = false ∧
    exceptIsOk (checkAvailabilityDays (some d) (some s) (some e)) = false ∧
    (e < s → exceptIsOk (checkAvailabilityDays none (some s) (some e)) = false) ∧
    (30 < e - s → exceptIsOk (checkAvailabilityDays none (some s) (some e)) = false) ∧
    (e = s + 30 → checkAvailabilityDays none (some s) (some e) = .ok (iterDays s e)) := by
  refine ⟨rfl, rfl, ?_, ?_, ?_⟩
  · intro h
    simp [checkAvailabilityDays, exceptIsOk, h]
  · intro h
    simp [checkAvailabilityDays, exceptIsOk, h]
  · intro h
    subst h
    have h1 : ¬(s + 30 < s) := by omega
    have h2 : ¬((30 : ℤ) < s + 30 - s) := by omega
    simp [checkAvailabilityDays, h1, h2]

/-- C5 witness: concrete instances of each validation branch. -/
theorem c5_validation_witness :
    exceptIsOk (checkAvailabilityDays none (some 5) (some 3)) = false ∧
    exceptIsOk (checkAvailabilityDays none (some 0) (some 31)) = false ∧
    checkAvailabilityDays none (some 0) (some 30) = .ok (iterDays 0 30) :=
  ⟨(c5_validation 0 5 3).2.2.1 (by decide),
   (c5_validation 0 0 31).2.2.2.1 (by decide),
   (c5_validation 0 0 30).2.2.2.2 rfl⟩

theorem handleToolCall_eq_map
    (execTool : String → List (String × String) → Except String String)
    (calls : List ToolCall) :
    handleToolCall execTool calls = calls.map (dispatchTool execTool) := by
  unfold handleToolCall
  suffices h : ∀ acc : List ToolMsg,
      calls.foldl (fun results call => results ++ [dispatchTool execTool call]) acc =
        acc ++ calls.map (dispatchTool execTool) by
    simpa using h []
  induction calls with
  | nil => intro acc; simp
  | cons c cs ih => intro acc; simp [List.foldl_cons, ih]

/-- C6: one conversational turn makes at most two model calls: the second
happens exactly when the first round finishes with "tool_calls" (so a "stop"
finish ends the turn after one call), and that single follow-up call offers
no tool catalogue; there is never a third round. -/
theorem c6_two_rounds (model : List ChatMsg → Bool → ModelResp)
    (execTool : String → List (String × String) → Except String String)
    (user_input : String) (history : Option (List HistTurn)) :
    (chat model execTool user_input history).2.length ≤ 2 ∧
    ((model (initMsgs user_input history) true).finish = "stop" →
        (chat model execTool user_input history).2 = [true]) ∧
    ((model (initMsgs user_input history) true).finish ≠ "tool_calls" →
        (chat model execTool user_input history).2 = [true]) ∧
    ((model (initMsgs user_input history) true).finish = "tool_calls" →
        (chat model execTool user_input history).2 = [true, false]) := by
  by_cases hr : (model (initMsgs user_input history) true).finish = "tool_calls"
  · have hb : ((model (initMsgs user_input history) true).finish == "tool_calls") = true := by
      simp [hr]
    refine ⟨?_, ?_, ?_, ?_⟩
    · simp [chat, hb]
    · intro hstop
      rw [hr] at hstop
      exact absurd hstop (by decide)
    · intro hne
      exact absurd hr hne
    · intro _
      simp [chat, hb]
  · have hb : ((model (initMsgs user_input history) true).finish == "tool_calls") = false := by
      simp [hr]
    refine ⟨?_, ?_, ?_, ?_⟩
    · simp [chat, hb]
    · intro _
      simp [chat, hb]
    · intro _
      simp [chat, hb]
    · intro h
      exact absurd h hr

/-- C6 witness: a model that requests tool calls in round one produces the
two-call trace [true, false]; one that stops produces the one-call trace. -/
theorem c6_two_rounds_witness :
    (chat (fun _ offered => if offered
        then ⟨"tool_calls", "", [⟨"c1", "estimate_fee", some []⟩]⟩
        else ⟨"stop", "done", []⟩) (fun _ _ => .ok "r") "hi" none).2 = [true, false] ∧
    (chat (fun _ _ => ⟨"stop", "direct answer", []⟩)
      (fun _ _ => .ok "r") "hi" none).2 = [true] :=
  ⟨(c6_two_rounds _ _ "hi" none).2.2.2 rfl,
   (c6_two_rounds _ _ "hi" none).2.1 rfl⟩

/-- C8: the dispatcher returns exactly one result message per requested
call, in order, each tagged with that call's identifier; malformed JSON
arguments behave as the empty argument set; an unrecognised tool name yields
the unknown-tool error payload; an exception from a dispatched tool becomes
that call's structured error payload — never an abort. -/
theorem c8_dispatch (execTool : String → List (String × String) → Except String String)
    (calls : List ToolCall) :
    (handleToolCall execTool calls).length = calls.length ∧
    (∀ i (hi : i < calls.length),
        (handleToolCall execTool calls)[i]? =
          some (dispatchTool execTool calls[i])) ∧
    (∀ call : ToolCall, (dispatchTool execTool call).tool_call_id = call.id) ∧
    (∀ call : ToolCall, (dispatchTool execTool call).role = "tool") ∧
    (∀ call : ToolCall, call.argsParse = none →
        dispatchTool execTool call = dispatchTool execTool ⟨call.id, call.fn, some []⟩) ∧
    (∀ call : ToolCall, call.fn ∉ KNOWN_TOOLS →
        (dispatchTool execTool call).content = .errObj ("unknown tool " ++ call.fn)) ∧
    (∀ (call : ToolCall) (e : String), call.fn ∈ KNOWN_TOOLS →
        execTool call.fn (call.argsParse.getD []) = .error e →
        (dispatchTool execTool call).content = .errObj e) := by
  refine ⟨?_, ?_, ?_, ?_, ?_, ?_, ?_⟩
  · rw [handleToolCall_eq_map]; simp
  · intro i hi
    rw [handleToolCall_eq_map]
    simp [List.getElem?_map, List.getElem?_eq_getElem hi]
  · intro call; rfl
  · intro call; rfl
  · intro call h
    simp [dispatchTool, h]
  · intro call h
    simp only [KNOWN_TOOLS, List.mem_cons, List.not_mem_nil, or_false, not_or] at h
    obtain ⟨h1, h2, h3, h4, h5, h6, h7, h8⟩ := h
    simp [dispatchTool, h1, h2, h3, h4, h5, h6, h7, h8]
  · intro call e hmem hexec
    simp only [KNOWN_TOOLS, List.mem_cons, List.not_mem_nil, or_false] at hmem
    rcases hmem with h | h | h | h | h | h | h | h <;>
      rw [h] at hexec <;> simp [dispatchTool, h, hexec, toRes]

/-- C8 witness: a two-call round with one failing known tool and one unknown
tool still yields one tagged result per call. -/
theorem c8_dispatch_witness :
    (handleToolCall (fun _ _ => .error "boom")
        [⟨"id1", "estimate_fee", none⟩, ⟨"id2", "bogus", some []⟩]).length = 2 ∧
    (dispatchTool (fun _ _ => .error "boom")
        (⟨"id1", "estimate_fee", none⟩ : ToolCall)).tool_call_id = "id1" ∧
    dispatchTool (fun _ _ => .error "boom") (⟨"id1", "estimate_fee", none⟩ : ToolCall) =
      dispatchTool (fun _ _ => .error "boom") (⟨"id1", "estimate_fee", some []⟩ : ToolCall) ∧
    (dispatchTool (fun _ _ => .error "boom")
        (⟨"id2", "bogus", some []⟩ : ToolCall)).content = .errObj ("unknown tool " ++ "bogus") ∧
    (dispatchTool (fun _ _ => .error "boom")
        (⟨"id1", "estimate_fee", some []⟩ : ToolCall)).content = .errObj "boom" :=
  ⟨((c8_dispatch (fun _ _ => .error "boom")
      [⟨"id1", "estimate_fee", none⟩, ⟨"id2", "bogus", some []⟩]).1).trans rfl,
   (c8_dispatch (fun _ _ => .error "boom") []).2.2.1 ⟨"id1", "estimate_fee", none⟩,
   (c8_dispatch (fun _ _ => .error "boom") []).2.2.2.2.1 ⟨"id1", "estimate_fee", none⟩ rfl,
   (c8_dispatch (fun _ _ => .error "boom") []).2.2.2.2.2.1 ⟨"id2", "bogus", some []⟩ (by decide),
   (c8_dispatch (fun _ _ => .error "boom") []).2.2.2.2.2.2 ⟨"id1", "estimate_fee", some []⟩
     "boom" (by decide) rfl⟩

end UPFH
